import Mathlib

/-!
Verification of the bazelisk launcher (src/bazelisk.py) against its
specification. The Python source is shallowly embedded: filesystem paths are
lists of components, filesystem and network behaviour are explicit parameters,
and each Python function becomes a Lean function of the same name.
-/

set_option autoImplicit false

namespace Bazelisk

/-- A filesystem path, listed as its components innermost-first: `[]` is the
filesystem root `/`, and `["b", "a"]` stands for `/a/b`. With this
representation `os.path.join(dir, name)` is `name :: dir` and
`os.path.dirname` drops the head; `dirname` of the root is the root itself,
matching POSIX `os.path.dirname`. -/
abbrev Path := List String

/-- Outcome of Python `open(path).read()`: success with the file contents,
`FileNotFoundError`, or any other exception (e.g. `PermissionError`),
carrying its message. -/
inductive ReadResult where
  | ok (contents : String)
  | fileNotFound
  | otherError (msg : String)
deriving DecidableEq

/-- The filesystem as seen by the version selector: `os.path.exists` and
reading a text file. -/
structure FS where
  fexists : Path → Bool
  read : Path → ReadResult

/-- `ONE_HOUR` from the source (line 26). -/
def ONE_HOUR : Nat := 1 * 60 * 60

/-- Model of Python `str.lower()`: lowercase every character. -/
def pylower (s : String) : String := String.mk (s.data.map Char.toLower)

/-- Model of Python `str.strip()`: remove leading and trailing whitespace. -/
def pystrip (s : String) : String :=
  String.mk (((s.data.dropWhile Char.isWhitespace).reverse.dropWhile
    Char.isWhitespace).reverse)

/-- Embedding of `find_workspace_root` (source lines 48-54): walk upward from
`root`, returning the first directory that contains a `WORKSPACE` file; the
walk stops with `None` when `os.path.dirname(root) == root`, i.e. at the
filesystem root, which in the innermost-first list representation is `[]`. -/
def find_workspace_root (fs : FS) (root : Path) : Option Path :=
  if fs.fexists ("WORKSPACE" :: root) then some root
  else
    match root with
    | [] => none
    | _ :: parent => find_workspace_root fs parent

/-- Embedding of `decide_which_bazel_version_to_use` (source lines 28-46):
the `USE_BAZEL_VERSION` environment variable if set; else the trimmed
contents of `workspace_root/.bazelversion`; the `try` block catches only
`FileNotFoundError` (line 44), so any other read error escapes as an
exception (`Except.error`); else the string `latest`. -/
def decide_which_bazel_version_to_use (useBazelVersion : Option String)
    (fs : FS) (cwd : Path) : Except String String :=
  match useBazelVersion with
  | some v => Except.ok v
  | none =>
    match find_workspace_root fs cwd with
    | some workspace_root =>
      match fs.read (".bazelversion" :: workspace_root) with
      | ReadResult.ok contents => Except.ok (pystrip contents)
      | ReadResult.fileNotFound => Except.ok "latest"
      | ReadResult.otherError m => Except.error m
    | none => Except.ok "latest"

/-- Result of `resolve_version_label_to_number`: the version string returned,
whether the network was queried (`resolve_latest_version` called), and the
state of the `latest_bazel` cache file afterwards (contents and mtime). -/
structure ResolveOut where
  result : String
  networkCalled : Bool
  cacheFile : Option (String × Int)
deriving DecidableEq

/-- Embedding of `resolve_version_label_to_number` (source lines 61-74).
`cacheFile` models the `latest_bazel` file in the bazelisk directory as
`some (contents, mtime)` when it exists; `now` is `time.time()`;
`networkLatest` is the value `resolve_latest_version()` would return. The
cache is trusted when `abs(time.time() - mtime) < ONE_HOUR` (line 65);
otherwise, and when the file is absent (`FileNotFoundError`, line 68), the
network is queried and the cache file rewritten (lines 70-73, which sets its
mtime to the current time). A non-`latest` version is returned unchanged. -/
def resolve_version_label_to_number (cacheFile : Option (String × Int))
    (now : Int) (networkLatest : String) (version : String) : ResolveOut :=
  if version = "latest" then
    match cacheFile with
    | some (contents, mtime) =>
      if (now - mtime).natAbs < ONE_HOUR then
        ⟨pystrip contents, false, some (contents, mtime)⟩
      else
        ⟨networkLatest, true, some (networkLatest, now)⟩
    | none => ⟨networkLatest, true, some (networkLatest, now)⟩
  else ⟨version, false, cacheFile⟩

/-- Embedding of `determine_bazel_filename` (source lines 76-85). `machine`
is `platform.machine()` and `systemName` is `platform.system()` (lowercased
on line 81). Unsupported architecture or OS raises (`Except.error`). -/
def determine_bazel_filename (machine systemName version : String) :
    Except String String :=
  if machine ≠ "x86_64" then
    Except.error ("Unsupported machine architecture " ++ machine ++
      ". Bazel currently only supports x86_64.")
  else
    let operating_system := pylower systemName
    if operating_system ∉ (["linux", "darwin", "windows"] : List String) then
      Except.error ("Unsupported operating system " ++ operating_system ++
        ". Bazel currently only supports Linux, macOS and Windows.")
    else
      Except.ok ("bazel-" ++ version ++ "-" ++ operating_system ++ "-" ++ machine)

/-- The download URL computed on source line 98:
`"https://releases.bazel.build/{}/release/{}".format(version, bazel_filename)`. -/
def bazel_url (version bazel_filename : String) : String :=
  "https://releases.bazel.build/" ++ version ++ "/release/" ++ bazel_filename

/-- Behaviour of the download network stream (`urllib.request.urlopen(url)`
plus the 1024-byte `u.read` loop, source lines 102-118): either the whole
body arrives as a list of chunks, or the stream raises partway through after
delivering some chunks (which sit only in the in-memory `data_blocks` list
and are discarded). -/
inductive NetResult where
  | okStream (chunks : List (List Nat))
  | fail (delivered : List (List Nat))

/-- The download directory state: for each path, the file's bytes if it
exists, and its permission bits. -/
structure DlFS where
  file : Path → Option (List Nat)
  perm : Path → Nat

/-- Embedding of `os.chmod(p, m)`. -/
def chmod (fs : DlFS) (p : Path) (m : Nat) : DlFS :=
  { fs with perm := fun q => if q = p then m else fs.perm q }

/-- Embedding of `download_bazel_into_directory` (source lines 96-123).
Returns the Python return value (the destination path) together with an
observation of the network: `some url` when a fetch from `url` happened,
`none` when the existing file was reused; and the download directory state
afterwards. If the destination exists the network is not touched (line 100).
Otherwise the body is read chunk by chunk into `data_blocks` and written in
a single `open(...).write` only after the stream completes (lines 107-121),
so a stream failure propagates the exception with no file created. In both
success branches `os.chmod(destination_path, 0o755)` runs (line 122). -/
def download_bazel_into_directory (machine systemName : String)
    (net : NetResult) (version : String) (directory : Path) (fs : DlFS) :
    Except String (Path × Option String) × DlFS :=
  match determine_bazel_filename machine systemName version with
  | Except.error m => (Except.error m, fs)
  | Except.ok bazel_filename =>
    let url := bazel_url version bazel_filename
    let destination_path : Path := bazel_filename :: directory
    if (fs.file destination_path).isSome then
      (Except.ok (destination_path, none), chmod fs destination_path 0o755)
    else
      match net with
      | NetResult.fail _ => (Except.error "NetworkError", fs)
      | NetResult.okStream chunks =>
        let data := chunks.flatten
        let fs1 : DlFS :=
          { fs with file := fun p => if p = destination_path then some data else fs.file p }
        (Except.ok (destination_path, some url), chmod fs1 destination_path 0o755)

/-- Observable side effects of `main`, in order. -/
inductive Effect where
  | makedirs (p : Path)
  | latestNetworkCall
  | downloadFetch (url : String)
  | spawn (p : Path)
deriving DecidableEq

/-- The whole environment `main` runs in. -/
structure MainEnv where
  useBazelVersion : Option String
  fs : FS
  cwd : Path
  home : Path
  cacheFile : Option (String × Int)
  now : Int
  networkLatest : String
  machine : String
  systemName : String
  net : NetResult
  dlfs : DlFS

/-- Embedding of `main` (source lines 125-140): create `~/.bazelisk`
(line 130), select the version, resolve it (querying the network when the
`latest` cache misses), create `~/.bazelisk/bin` (line 137), download, and
spawn the binary. Returns the ordered effect trace, the outcome (the spawned
binary's path, or the uncaught exception), and the download directory state
afterwards. -/
def main (e : MainEnv) : List Effect × Except String Path × DlFS :=
  let bazelisk_directory : Path := ".bazelisk" :: e.home
  let t1 : List Effect := [Effect.makedirs bazelisk_directory]
  match decide_which_bazel_version_to_use e.useBazelVersion e.fs e.cwd with
  | Except.error m => (t1, Except.error m, e.dlfs)
  | Except.ok v0 =>
    let r := resolve_version_label_to_number e.cacheFile e.now e.networkLatest v0
    let t2 := t1 ++ (if r.networkCalled then [Effect.latestNetworkCall] else [])
    let bazel_directory : Path := "bin" :: bazelisk_directory
    let t3 := t2 ++ [Effect.makedirs bazel_directory]
    match download_bazel_into_directory e.machine e.systemName e.net r.result
        bazel_directory e.dlfs with
    | (Except.error m, fs2) => (t3, Except.error m, fs2)
    | (Except.ok (p, u), fs2) =>
      let t4 := t3 ++ (match u with
        | some url => [Effect.downloadFetch url]
        | none => []) ++ [Effect.spawn p]
      (t4, Except.ok p, fs2)

/-- The version-selection-then-resolution pipeline of `main` (source
lines 132-133): the string that reaches `download_bazel_into_directory`. -/
def pipeline (useBazelVersion : Option String) (fs : FS) (cwd : Path)
    (cacheFile : Option (String × Int)) (now : Int) (networkLatest : String) :
    Except String String :=
  match decide_which_bazel_version_to_use useBazelVersion fs cwd with
  | Except.error m => Except.error m
  | Except.ok v =>
    Except.ok (resolve_version_label_to_number cacheFile now networkLatest v).result

/-- The ResolvedVersion invariant claimed by the spec: non-empty and free of
path-separator characters — `Char.ofNat 47` is the forward slash and
`Char.ofNat 92` the backslash. -/
def good_version (v : String) : Prop :=
  v ≠ "" ∧ Char.ofNat 47 ∉ v.data ∧ Char.ofNat 92 ∉ v.data

instance (v : String) : Decidable (good_version v) := by
  unfold good_version; infer_instance

/-! Concrete environments used to evaluate the embedding on explicit inputs. -/

/-- An empty filesystem: nothing exists, every read raises
`FileNotFoundError`. -/
def fsEmpty : FS := ⟨fun _ => false, fun _ => ReadResult.fileNotFound⟩

/-- A filesystem whose workspace root is `/repo`, where reading the pin file
raises `IsADirectoryError` (the pin path exists but is a directory). -/
def fsC1 : FS :=
  ⟨fun p => p == ["WORKSPACE", "repo"],
   fun p => if p = [".bazelversion", "repo"] then ReadResult.otherError "IsADirectoryError"
            else ReadResult.fileNotFound⟩

/-- A filesystem whose workspace root is `/home/proj`, where reading the pin
file raises `PermissionError`. -/
def fsC7 : FS :=
  ⟨fun p => p == ["WORKSPACE", "proj", "home"],
   fun p => if p = [".bazelversion", "proj", "home"] then ReadResult.otherError "PermissionError"
            else ReadResult.fileNotFound⟩

/-- A filesystem whose workspace root is `/w` and whose pin file is simply
absent. -/
def fsC7w : FS :=
  ⟨fun p => p == ["WORKSPACE", "w"], fun _ => ReadResult.fileNotFound⟩

/-- The destination path the downloader computes for a supported platform:
the file `bazel-<version>-<os>-x86_64` inside `directory`. -/
def artifact_path (version systemName : String) (directory : Path) : Path :=
  ("bazel-" ++ version ++ "-" ++ pylower systemName ++ "-" ++ "x86_64") :: directory

/-- An empty download directory. -/
def dlfsEmpty : DlFS := ⟨fun _ => none, fun _ => 0⟩

/-- A download directory already holding `bazel-7.0.0-linux-x86_64` with
permission bits 0o600. -/
def dlfsC10 : DlFS :=
  ⟨fun p => if p = ["bazel-7.0.0-linux-x86_64"] then some [1, 2, 3] else none,
   fun _ => 0o600⟩

/-- Environment for running `main` on an unsupported arm64 machine: no
override, empty filesystem (so the selected version is "latest"), no cache
file (so resolution queries the network), and an empty download directory
under the home `/home/alice`. -/
def envC3 : MainEnv :=
  ⟨none, fsEmpty, ["alice", "home"], ["alice", "home"], none, 5000, "9.1.0",
   "arm64", "Linux", NetResult.okStream [[1]], dlfsEmpty⟩

end Bazelisk

namespace Bazelisk

/-- Claim C1 (amended): for every environment state, the version selector
returns the value of USE_BAZEL_VERSION when it is set; otherwise, if a
workspace root exists and the .bazelversion file inside it reads
successfully, it returns that file's trimmed contents; otherwise — no
workspace root, or the pin file absent — it returns "latest"; a pin file
whose read fails for a reason other than absence raises that error instead.
Override beats pin file beats latest regardless of the other sources. -/
theorem C1_precedence (useB : Option String) (fs : FS) (cwd : Path) :
    (∀ v, useB = some v →
      decide_which_bazel_version_to_use useB fs cwd = Except.ok v) ∧
    (useB = none → ∀ root c, find_workspace_root fs cwd = some root →
      fs.read (".bazelversion" :: root) = ReadResult.ok c →
      decide_which_bazel_version_to_use useB fs cwd = Except.ok (pystrip c)) ∧
    (useB = none → find_workspace_root fs cwd = none →
      decide_which_bazel_version_to_use useB fs cwd = Except.ok "latest") ∧
    (useB = none → ∀ root, find_workspace_root fs cwd = some root →
      fs.read (".bazelversion" :: root) = ReadResult.fileNotFound →
      decide_which_bazel_version_to_use useB fs cwd = Except.ok "latest") := by
  refine ⟨?_, ?_, ?_, ?_⟩
  · intro v hv; simp [decide_which_bazel_version_to_use, hv]
  · intro h root c hr hc; simp [decide_which_bazel_version_to_use, h, hr, hc]
  · intro h hr; simp [decide_which_bazel_version_to_use, h, hr]
  · intro h root hr hc; simp [decide_which_bazel_version_to_use, h, hr, hc]

/-- Claim C1, witness: evaluating the selector on concrete environments for
each precedence level. -/
theorem C1_precedence_witness :
    decide_which_bazel_version_to_use (some "6.0.0") fsC1 ["repo"] = Except.ok "6.0.0" ∧
    decide_which_bazel_version_to_use none fsEmpty ["a"] = Except.ok "latest" :=
  ⟨(C1_precedence (some "6.0.0") fsC1 ["repo"]).1 "6.0.0" rfl,
   (C1_precedence none fsEmpty ["a"]).2.2.1 rfl rfl⟩

/-- Claim C1, counterexample to the claim as stated: with no override, a
workspace root at `/repo`, and a pin file whose read raises
`IsADirectoryError` (so there is no "readable .bazelversion file"), the
selector does not return "latest" — it propagates the error. -/
theorem C1_counterexample :
    decide_which_bazel_version_to_use none fsC1 ["repo"] =
      Except.error "IsADirectoryError" ∧
    decide_which_bazel_version_to_use none fsC1 ["repo"] ≠ Except.ok "latest" := by
  refine ⟨rfl, ?_⟩
  intro h
  simp [decide_which_bazel_version_to_use, find_workspace_root, fsC1] at h

/-- Claim C7 (amended): with no override set and a workspace root found, only
simple absence of the pin file (FileNotFoundError) is recovered by falling
through to "latest"; a read failure for any other reason propagates as an
uncaught exception. -/
theorem C7_absence_only (fs : FS) (cwd root : Path)
    (hroot : find_workspace_root fs cwd = some root) :
    (fs.read (".bazelversion" :: root) = ReadResult.fileNotFound →
      decide_which_bazel_version_to_use none fs cwd = Except.ok "latest") ∧
    (∀ m, fs.read (".bazelversion" :: root) = ReadResult.otherError m →
      decide_which_bazel_version_to_use none fs cwd = Except.error m) := by
  constructor
  · intro hr; simp [decide_which_bazel_version_to_use, hroot, hr]
  · intro m hr; simp [decide_which_bazel_version_to_use, hroot, hr]

/-- Claim C7, witness: a workspace root at `/w` with the pin file absent
falls through to "latest". -/
theorem C7_absence_only_witness :
    decide_which_bazel_version_to_use none fsC7w ["w"] = Except.ok "latest" :=
  (C7_absence_only fsC7w ["w"] ["w"] rfl).1 rfl

/-- Claim C7, counterexample to the claim as stated: with no override, a
workspace root at `/home/proj`, and a pin file that is present but unreadable
(`PermissionError`), the selector does not fall through to "latest" — the
exception propagates. -/
theorem C7_counterexample :
    decide_which_bazel_version_to_use none fsC7 ["proj", "home"] =
      Except.error "PermissionError" ∧
    decide_which_bazel_version_to_use none fsC7 ["proj", "home"] ≠
      Except.ok "latest" := by
  refine ⟨rfl, ?_⟩
  intro h
  simp [decide_which_bazel_version_to_use, find_workspace_root, fsC7] at h

/-- Claim C9: the upward workspace walk terminates for every starting
directory (it is a total function of the path, whose length strictly
decreases at each recursive step), and in a tree with no WORKSPACE marker
anywhere the selector falls through to "latest". -/
theorem C9_walk_termination (fs : FS) (cwd : Path)
    (hno : ∀ p : Path, fs.fexists ("WORKSPACE" :: p) = false) :
    find_workspace_root fs cwd = none ∧
    decide_which_bazel_version_to_use none fs cwd = Except.ok "latest" := by
  have hwalk : ∀ r : Path, find_workspace_root fs r = none := by
    intro r
    induction r with
    | nil => simp [find_workspace_root, hno]
    | cons a t ih => simp [find_workspace_root, hno, ih]
  exact ⟨hwalk cwd, by simp [decide_which_bazel_version_to_use, hwalk]⟩

/-- Claim C9, witness: on an empty filesystem, walking up from `/a/b`
terminates with no workspace root and the selector returns "latest". -/
theorem C9_walk_termination_witness :
    find_workspace_root fsEmpty ["b", "a"] = none ∧
    decide_which_bazel_version_to_use none fsEmpty ["b", "a"] = Except.ok "latest" :=
  C9_walk_termination fsEmpty ["b", "a"] (fun _ => rfl)

end Bazelisk

namespace Bazelisk

/-- Claim C2: resolving the descriptor "latest" hits the `latest_bazel` cache
file, returning its trimmed contents with no network call, exactly when the
absolute difference between the current time and the file's mtime is below
3600 seconds; otherwise (stale, or the file absent) the network is queried,
the cache file is overwritten with the result (its mtime becoming the current
time), and the result is returned. -/
theorem C2_cache_ttl (contents netv : String) (mtime now : Int) :
    ((now - mtime).natAbs < 3600 →
      resolve_version_label_to_number (some (contents, mtime)) now netv "latest" =
        ⟨pystrip contents, false, some (contents, mtime)⟩) ∧
    (3600 ≤ (now - mtime).natAbs →
      resolve_version_label_to_number (some (contents, mtime)) now netv "latest" =
        ⟨netv, true, some (netv, now)⟩) ∧
    resolve_version_label_to_number none now netv "latest" =
      ⟨netv, true, some (netv, now)⟩ := by
  refine ⟨?_, ?_, ?_⟩
  · intro h
    simp [resolve_version_label_to_number, ONE_HOUR, h]
  · intro h
    simp [resolve_version_label_to_number, ONE_HOUR, Nat.not_lt.mpr h]
  · simp [resolve_version_label_to_number]

/-- Claim C2, witness: a cache written at time 1000 is trusted at time 2800
(1800 seconds later, no network call) and refreshed over the network at time
4700 (3700 seconds later). -/
theorem C2_cache_ttl_witness :
    resolve_version_label_to_number (some ("7.0.0", 1000)) 2800 "8.0.0" "latest" =
      ⟨"7.0.0", false, some ("7.0.0", 1000)⟩ ∧
    resolve_version_label_to_number (some ("7.0.0", 1000)) 4700 "8.0.0" "latest" =
      ⟨"8.0.0", true, some ("8.0.0", 4700)⟩ :=
  ⟨(C2_cache_ttl "7.0.0" "8.0.0" 1000 2800).1 (by decide),
   (C2_cache_ttl "7.0.0" "8.0.0" 1000 4700).2.1 (by decide)⟩

/-- The result of `resolve_version_label_to_number` is always one of: the
input version unchanged, the network's latest value, or the cache file's
trimmed contents. -/
theorem resolve_result_sources (cacheFile : Option (String × Int)) (now : Int)
    (networkLatest version : String) :
    (resolve_version_label_to_number cacheFile now networkLatest version).result = version ∨
    (resolve_version_label_to_number cacheFile now networkLatest version).result = networkLatest ∨
    (∃ c t, cacheFile = some (c, t) ∧
      (resolve_version_label_to_number cacheFile now networkLatest version).result = pystrip c) := by
  unfold resolve_version_label_to_number
  by_cases hv : version = "latest"
  · cases cacheFile with
    | none => simp [hv]
    | some p =>
      obtain ⟨c, t⟩ := p
      by_cases h : (now - t).natAbs < ONE_HOUR
      · exact Or.inr (Or.inr ⟨c, t, rfl, by simp [hv, h]⟩)
      · simp [hv, h]
  · simp [hv]

/-- The version selector only ever succeeds with the override value, some
trimmed read contents, or the string "latest". -/
theorem decide_result_sources (useB : Option String) (fs : FS) (cwd : Path)
    (v : String)
    (h : decide_which_bazel_version_to_use useB fs cwd = Except.ok v) :
    (∃ s, useB = some s ∧ v = s) ∨
    (∃ p c, fs.read p = ReadResult.ok c ∧ v = pystrip c) ∨ v = "latest" := by
  cases hu : useB with
  | some s =>
    simp [decide_which_bazel_version_to_use, hu] at h
    exact Or.inl ⟨s, rfl, h.symm⟩
  | none =>
    cases hr : find_workspace_root fs cwd with
    | none =>
      simp [decide_which_bazel_version_to_use, hu, hr] at h
      exact Or.inr (Or.inr h.symm)
    | some root =>
      cases hc : fs.read (".bazelversion" :: root) with
      | ok c =>
        simp [decide_which_bazel_version_to_use, hu, hr, hc] at h
        exact Or.inr (Or.inl ⟨_, c, hc, h.symm⟩)
      | fileNotFound =>
        simp [decide_which_bazel_version_to_use, hu, hr, hc] at h
        exact Or.inr (Or.inr h.symm)
      | otherError m =>
        simp [decide_which_bazel_version_to_use, hu, hr, hc] at h

/-- Claim C8 (amended): the pipeline performs no validation of its own, so
the ResolvedVersion invariant (non-empty, no path separators) holds exactly
when every source feeding the pipeline satisfies it: whenever the override
value, all readable pin-file contents (trimmed), all cache-file contents
(trimmed) and the network's latest value are non-empty and separator-free,
so is every version the pipeline produces. -/
theorem C8_invariant_conditional (useB : Option String) (fs : FS) (cwd : Path)
    (cacheFile : Option (String × Int)) (now : Int) (netv : String) (v : String)
    (h1 : ∀ s, useB = some s → good_version s)
    (h2 : ∀ p c, fs.read p = ReadResult.ok c → good_version (pystrip c))
    (h3 : ∀ c t, cacheFile = some (c, t) → good_version (pystrip c))
    (h4 : good_version netv)
    (h5 : pipeline useB fs cwd cacheFile now netv = Except.ok v) :
    good_version v := by
  unfold pipeline at h5
  cases hd : decide_which_bazel_version_to_use useB fs cwd with
  | error m => rw [hd] at h5; simp at h5
  | ok v0 =>
    rw [hd] at h5; simp at h5
    have hv0 : good_version v0 ∨ v0 = "latest" := by
      rcases decide_result_sources useB fs cwd v0 hd with ⟨s, hs, hv⟩ | ⟨p, c, hc, hv⟩ | hv
      · subst hv; exact Or.inl (h1 _ hs)
      · subst hv; exact Or.inl (h2 _ _ hc)
      · exact Or.inr hv
    rcases resolve_result_sources cacheFile now netv v0 with he | he | ⟨c, t, hct, he⟩
    · rw [← h5, he]
      rcases hv0 with hg | rfl
      · exact hg
      · exact (by decide : good_version "latest")
    · rw [← h5, he]; exact h4
    · rw [← h5, he]; exact h3 c t hct

/-- Claim C8, witness: with every source separator-free (override `7.0.0`,
empty filesystem, no cache, network value `9.0.0`), the pipeline's output is
separator-free and non-empty. -/
theorem C8_invariant_conditional_witness : good_version "7.0.0" :=
  C8_invariant_conditional (some "7.0.0") fsEmpty [] none 0 "9.0.0" "7.0.0"
    (fun _ hs => Option.some.inj hs ▸ (by decide : good_version "7.0.0"))
    (fun p c hc => by simp [fsEmpty] at hc)
    (fun c t hct => by cases hct)
    (by decide) rfl

/-- Claim C8, counterexample to the claim as stated: the override
`USE_BAZEL_VERSION=a/b` flows through selection and resolution unchanged, so
the pipeline produces the ResolvedVersion `a/b`, which contains the path
separator `/`. -/
theorem C8_counterexample :
    pipeline (some "a/b") fsEmpty [] none 0 "9.0.0" = Except.ok "a/b" ∧
    Char.ofNat 47 ∈ ("a/b" : String).data := by
  exact ⟨rfl, by decide⟩

end Bazelisk

namespace Bazelisk

/-- On an x86_64 machine with a supported OS, `determine_bazel_filename`
succeeds with the canonical `bazel-<version>-<os>-<arch>` filename. -/
theorem determine_bazel_filename_ok (systemName version : String)
    (h : pylower systemName ∈ (["linux", "darwin", "windows"] : List String)) :
    determine_bazel_filename "x86_64" systemName version =
      Except.ok ("bazel-" ++ version ++ "-" ++ pylower systemName ++ "-" ++ "x86_64") := by
  simp [determine_bazel_filename, h]

/-- Claim C5: artifact naming is a deterministic pure function of version and
platform — the filename is `bazel-<version>-<os>-<arch>`, the URL is the
fixed distribution host plus `/<version>/release/<filename>`, and the local
path returned by the downloader is the download directory joined with the
filename (with the URL recorded on any fetch being exactly that URL). -/
theorem C5_naming (version systemName : String) (net : NetResult)
    (directory : Path) (fs : DlFS)
    (hos : pylower systemName ∈ (["linux", "darwin", "windows"] : List String)) :
    determine_bazel_filename "x86_64" systemName version =
      Except.ok ("bazel-" ++ version ++ "-" ++ pylower systemName ++ "-" ++ "x86_64") ∧
    bazel_url version ("bazel-" ++ version ++ "-" ++ pylower systemName ++ "-" ++ "x86_64") =
      "https://releases.bazel.build/" ++ version ++ "/release/" ++
        ("bazel-" ++ version ++ "-" ++ pylower systemName ++ "-" ++ "x86_64") ∧
    (∀ p u, (download_bazel_into_directory "x86_64" systemName net version directory fs).1 =
        Except.ok (p, u) →
      p = ("bazel-" ++ version ++ "-" ++ pylower systemName ++ "-" ++ "x86_64") :: directory ∧
      ∀ uu, u = some uu →
        uu = bazel_url version
          ("bazel-" ++ version ++ "-" ++ pylower systemName ++ "-" ++ "x86_64")) := by
  refine ⟨determine_bazel_filename_ok systemName version hos, rfl, ?_⟩
  intro p u h
  unfold download_bazel_into_directory at h
  rw [determine_bazel_filename_ok systemName version hos] at h
  simp only at h
  by_cases hex : (fs.file (("bazel-" ++ version ++ "-" ++ pylower systemName ++ "-" ++
      "x86_64") :: directory)).isSome
  · rw [if_pos hex] at h
    simp at h
    exact ⟨h.1.symm, fun uu huu => by rw [← h.2] at huu; cases huu⟩
  · rw [if_neg hex] at h
    cases net with
    | fail d => simp at h
    | okStream chunks =>
      simp at h
      exact ⟨h.1.symm, fun uu huu => by rw [← h.2] at huu; exact (Option.some.inj huu).symm⟩

/-- Claim C5, witness: two concrete version/platform pairs give exactly the
expected filenames. -/
theorem C5_naming_witness :
    determine_bazel_filename "x86_64" "Linux" "7.0.0" =
      Except.ok "bazel-7.0.0-linux-x86_64" ∧
    determine_bazel_filename "x86_64" "Windows" "0.29.1" =
      Except.ok "bazel-0.29.1-windows-x86_64" :=
  ⟨(C5_naming "7.0.0" "Linux" (NetResult.fail []) [] dlfsEmpty (by decide)).1,
   (C5_naming "0.29.1" "Windows" (NetResult.fail []) [] dlfsEmpty (by decide)).1⟩

/-- Claim C4: the download is idempotent — when a file already exists at the
computed destination the operation touches no network (whatever the network
would do) and returns that same path; starting from an absent file, the
first call fetches from the network exactly once and the second call is a
local no-op returning the same path with no fetch. -/
theorem C4_idempotent (systemName version : String) (net : NetResult)
    (directory : Path) (fs : DlFS) (chunks : List (List Nat))
    (hos : pylower systemName ∈ (["linux", "darwin", "windows"] : List String)) :
    ((fs.file (artifact_path version systemName directory)).isSome = true →
      (download_bazel_into_directory "x86_64" systemName net version directory fs).1 =
        Except.ok (artifact_path version systemName directory, none)) ∧
    (fs.file (artifact_path version systemName directory) = none →
      (download_bazel_into_directory "x86_64" systemName (NetResult.okStream chunks)
          version directory fs).1 =
        Except.ok (artifact_path version systemName directory,
          some (bazel_url version
            ("bazel-" ++ version ++ "-" ++ pylower systemName ++ "-" ++ "x86_64"))) ∧
      (download_bazel_into_directory "x86_64" systemName (NetResult.okStream chunks)
          version directory
          (download_bazel_into_directory "x86_64" systemName (NetResult.okStream chunks)
            version directory fs).2).1 =
        Except.ok (artifact_path version systemName directory, none)) := by
  have hok := determine_bazel_filename_ok systemName version hos
  constructor
  · intro hex
    simp only [artifact_path] at hex
    simp [download_bazel_into_directory, hok, artifact_path, hex]
  · intro habs
    simp only [artifact_path] at habs
    constructor
    · simp [download_bazel_into_directory, hok, artifact_path, habs]
    · simp [download_bazel_into_directory, hok, artifact_path, habs, chmod]

/-- Claim C4, witness: concrete first and second calls on an initially empty
download directory fetch exactly once. -/
theorem C4_idempotent_witness :
    (download_bazel_into_directory "x86_64" "Linux" (NetResult.okStream [[1, 2], [3]])
        "7.0.0" [] dlfsEmpty).1 =
      Except.ok (["bazel-7.0.0-linux-x86_64"],
        some "https://releases.bazel.build/7.0.0/release/bazel-7.0.0-linux-x86_64") ∧
    (download_bazel_into_directory "x86_64" "Linux" (NetResult.okStream [[1, 2], [3]])
        "7.0.0" []
        (download_bazel_into_directory "x86_64" "Linux" (NetResult.okStream [[1, 2], [3]])
          "7.0.0" [] dlfsEmpty).2).1 =
      Except.ok (["bazel-7.0.0-linux-x86_64"], none) :=
  (C4_idempotent "Linux" "7.0.0" (NetResult.fail []) [] dlfsEmpty [[1, 2], [3]]
    (by decide)).2 rfl

/-- Claim C6: a download whose network stream fails before completion is
atomic with respect to the destination — the exception propagates, the
download directory is unchanged, and no file exists at the destination path
(the chunks delivered so far lived only in memory), so a later run with a
working stream performs the download from scratch. -/
theorem C6_atomic_failure (systemName version : String) (directory : Path)
    (fs : DlFS) (delivered chunks : List (List Nat))
    (hos : pylower systemName ∈ (["linux", "darwin", "windows"] : List String))
    (habs : fs.file (artifact_path version systemName directory) = none) :
    download_bazel_into_directory "x86_64" systemName (NetResult.fail delivered)
        version directory fs = (Except.error "NetworkError", fs) ∧
    ((download_bazel_into_directory "x86_64" systemName (NetResult.fail delivered)
        version directory fs).2).file (artifact_path version systemName directory) = none ∧
    (download_bazel_into_directory "x86_64" systemName (NetResult.okStream chunks)
        version directory
        ((download_bazel_into_directory "x86_64" systemName (NetResult.fail delivered)
          version directory fs).2)).1 =
      Except.ok (artifact_path version systemName directory,
        some (bazel_url version
          ("bazel-" ++ version ++ "-" ++ pylower systemName ++ "-" ++ "x86_64"))) := by
  have hok := determine_bazel_filename_ok systemName version hos
  simp only [artifact_path] at habs
  refine ⟨?_, ?_, ?_⟩ <;>
    simp [download_bazel_into_directory, hok, artifact_path, habs, chmod]

/-- Claim C6, witness: a failed stream on an empty download directory leaves
no destination file, and the retry fetches successfully. -/
theorem C6_atomic_failure_witness :
    download_bazel_into_directory "x86_64" "Linux" (NetResult.fail [[9]]) "7.0.0" [] dlfsEmpty =
      (Except.error "NetworkError", dlfsEmpty) ∧
    ((download_bazel_into_directory "x86_64" "Linux" (NetResult.fail [[9]]) "7.0.0" []
        dlfsEmpty).2).file ["bazel-7.0.0-linux-x86_64"] = none ∧
    (download_bazel_into_directory "x86_64" "Linux" (NetResult.okStream [[1]]) "7.0.0" []
        ((download_bazel_into_directory "x86_64" "Linux" (NetResult.fail [[9]]) "7.0.0" []
          dlfsEmpty).2)).1 =
      Except.ok (["bazel-7.0.0-linux-x86_64"],
        some "https://releases.bazel.build/7.0.0/release/bazel-7.0.0-linux-x86_64") :=
  C6_atomic_failure "Linux" "7.0.0" [] dlfsEmpty [[9]] [[1]] (by decide) rfl

/-- Claim C10: every successful call of the downloader — the fetch branch
and the branch where the file already exists and nothing is downloaded or
written — sets the destination file's permission bits to 0o755 before
returning its path, whatever they were before. -/
theorem C10_chmod_always (machine systemName version : String) (net : NetResult)
    (directory : Path) (fs : DlFS) (p : Path) (u : Option String) (fs2 : DlFS)
    (h : download_bazel_into_directory machine systemName net version directory fs =
      (Except.ok (p, u), fs2)) :
    fs2.perm p = 0o755 := by
  unfold download_bazel_into_directory at h
  cases hdet : determine_bazel_filename machine systemName version with
  | error m => rw [hdet] at h; simp at h
  | ok fname =>
    rw [hdet] at h
    simp only at h
    by_cases hex : (fs.file (fname :: directory)).isSome
    · rw [if_pos hex] at h
      injection h with h1 h2
      injection h1 with h3
      injection h3 with hp hu
      subst hp; subst h2
      simp [chmod]
    · rw [if_neg hex] at h
      cases net with
      | fail d => simp at h
      | okStream chunks =>
        simp only at h
        injection h with h1 h2
        injection h1 with h3
        injection h3 with hp hu
        subst hp; subst h2
        simp [chmod]

/-- Claim C10, witness: a pre-existing binary with permissions 0o600 comes
out of the no-download branch with permissions 0o755. -/
theorem C10_chmod_always_witness :
    ((download_bazel_into_directory "x86_64" "Linux" (NetResult.fail []) "7.0.0" []
        dlfsC10).2).perm ["bazel-7.0.0-linux-x86_64"] = 0o755 ∧
    dlfsC10.perm ["bazel-7.0.0-linux-x86_64"] = 0o600 :=
  ⟨C10_chmod_always "x86_64" "Linux" "7.0.0" (NetResult.fail []) [] dlfsC10
    ["bazel-7.0.0-linux-x86_64"] none
    (download_bazel_into_directory "x86_64" "Linux" (NetResult.fail []) "7.0.0" []
      dlfsC10).2 rfl, rfl⟩

end Bazelisk

namespace Bazelisk

/-- For an unsupported machine or OS, `determine_bazel_filename` raises one
of the two unsupported-platform errors, for every version string. -/
theorem determine_bazel_filename_err (machine systemName : String)
    (h : machine ≠ "x86_64" ∨
      pylower systemName ∉ (["linux", "darwin", "windows"] : List String)) :
    ∀ ver, determine_bazel_filename machine systemName ver =
        Except.error ("Unsupported machine architecture " ++ machine ++
          ". Bazel currently only supports x86_64.") ∨
      determine_bazel_filename machine systemName ver =
        Except.error ("Unsupported operating system " ++ pylower systemName ++
          ". Bazel currently only supports Linux, macOS and Windows.") := by
  intro ver
  by_cases hm : machine = "x86_64"
  · right
    rcases h with hm2 | hos2
    · exact absurd hm hm2
    · simp [determine_bazel_filename, hm, hos2]
  · left
    simp [determine_bazel_filename, hm]

/-- Claim C3 (amended): on a host whose machine architecture is not x86_64
or whose OS is not linux, darwin or windows, a run that gets past version
selection raises an unsupported-platform error, and the error occurs before
any download fetch, before the binary is spawned, and before anything is
written to the download directory — but only after the cache directories
are created (and, when "latest" resolution missed its cache, after the
latest-version network call). -/
theorem C3_platform_error_after_setup (e : MainEnv) (v : String)
    (hv : decide_which_bazel_version_to_use e.useBazelVersion e.fs e.cwd = Except.ok v)
    (h : e.machine ≠ "x86_64" ∨
      pylower e.systemName ∉ (["linux", "darwin", "windows"] : List String)) :
    ((main e).2.1 = Except.error ("Unsupported machine architecture " ++ e.machine ++
        ". Bazel currently only supports x86_64.") ∨
     (main e).2.1 = Except.error ("Unsupported operating system " ++ pylower e.systemName ++
        ". Bazel currently only supports Linux, macOS and Windows.")) ∧
    (∀ u, Effect.downloadFetch u ∉ (main e).1) ∧
    (∀ p, Effect.spawn p ∉ (main e).1) ∧
    (main e).2.2 = e.dlfs ∧
    Effect.makedirs (".bazelisk" :: e.home) ∈ (main e).1 := by
  have hdl : ∀ ver (dir : Path) (fs : DlFS),
      (download_bazel_into_directory e.machine e.systemName e.net ver dir fs =
        (Except.error ("Unsupported machine architecture " ++ e.machine ++
          ". Bazel currently only supports x86_64."), fs)) ∨
      (download_bazel_into_directory e.machine e.systemName e.net ver dir fs =
        (Except.error ("Unsupported operating system " ++ pylower e.systemName ++
          ". Bazel currently only supports Linux, macOS and Windows."), fs)) := by
    intro ver dir fs
    rcases determine_bazel_filename_err e.machine e.systemName h ver with hd | hd
    · left; unfold download_bazel_into_directory; rw [hd]
    · right; unfold download_bazel_into_directory; rw [hd]
  rcases hdl (resolve_version_label_to_number e.cacheFile e.now e.networkLatest v).result
      ("bin" :: ".bazelisk" :: e.home) e.dlfs with hd | hd
  all_goals
    refine ⟨?_, ?_, ?_, ?_, ?_⟩
  · left; simp [main, hv, hd]
  · intro u
    simp only [main, hv, hd]
    cases hb : (resolve_version_label_to_number e.cacheFile e.now e.networkLatest v).networkCalled <;>
      simp [hb]
  · intro p
    simp only [main, hv, hd]
    cases hb : (resolve_version_label_to_number e.cacheFile e.now e.networkLatest v).networkCalled <;>
      simp [hb]
  · simp [main, hv, hd]
  · simp only [main, hv, hd]
    cases hb : (resolve_version_label_to_number e.cacheFile e.now e.networkLatest v).networkCalled <;>
      simp [hb]
  · right; simp [main, hv, hd]
  · intro u
    simp only [main, hv, hd]
    cases hb : (resolve_version_label_to_number e.cacheFile e.now e.networkLatest v).networkCalled <;>
      simp [hb]
  · intro p
    simp only [main, hv, hd]
    cases hb : (resolve_version_label_to_number e.cacheFile e.now e.networkLatest v).networkCalled <;>
      simp [hb]
  · simp [main, hv, hd]
  · simp only [main, hv, hd]
    cases hb : (resolve_version_label_to_number e.cacheFile e.now e.networkLatest v).networkCalled <;>
      simp [hb]

/-- Claim C3, witness: on the concrete arm64 environment, `main` fails with
the unsupported-architecture error, performed no download fetch and no
spawn, left the download directory untouched, and did create the cache
directory first. -/
theorem C3_platform_error_after_setup_witness :
    ((main envC3).2.1 = Except.error
        "Unsupported machine architecture arm64. Bazel currently only supports x86_64." ∨
     (main envC3).2.1 = Except.error
        "Unsupported operating system linux. Bazel currently only supports Linux, macOS and Windows.") ∧
    Effect.downloadFetch "x" ∉ (main envC3).1 ∧
    Effect.spawn [] ∉ (main envC3).1 ∧
    (main envC3).2.2 = envC3.dlfs ∧
    Effect.makedirs [".bazelisk", "alice", "home"] ∈ (main envC3).1 := by
  obtain ⟨h1, h2, h3, h4, h5⟩ :=
    C3_platform_error_after_setup envC3 "latest" rfl (Or.inl (by decide))
  exact ⟨h1, h2 "x", h3 [], h4, h5⟩

/-- Claim C3, counterexample to the claim as stated: on the arm64 host
`envC3`, `main` does raise the unsupported-architecture error, but only
after creating both cache directories and performing the latest-version
network call — the filesystem is not left unchanged and a network call was
attempted before the error. -/
theorem C3_counterexample :
    (main envC3).1 =
      [Effect.makedirs [".bazelisk", "alice", "home"], Effect.latestNetworkCall,
       Effect.makedirs ["bin", ".bazelisk", "alice", "home"]] ∧
    (main envC3).2.1 = Except.error
      "Unsupported machine architecture arm64. Bazel currently only supports x86_64." :=
  ⟨rfl, rfl⟩

end Bazelisk
